import Mathlib

/-!
Verification model of the `Poll` polling primitive (decorrelated-jitter
backoff, phase state machine, standby suspension, disposal semantics).

JavaScript numbers are modelled as rationals (ℚ); the `NEVER = Infinity`
interval sentinel is modelled by a dedicated constructor of `IntervalV`.
`Math.random()` draws are modelled as an explicit input `r` with
`0 ≤ r < 1`.  Machine-clock timestamps are explicit `now` arguments.
-/

namespace Poll

/-- The `backoff` field of a frequency: a boolean or a growth rate number. -/
inductive Backoff
  | ofBool (b : Bool)
  | ofNum (q : ℚ)
deriving DecidableEq

/-- Polling frequency parameters `{backoff, interval, max}`. -/
structure Frequency where
  backoff : Backoff
  interval : ℚ
  max : ℚ
deriving DecidableEq

/-- The platform ceiling `Poll.MAX_INTERVAL = 2147483647`. -/
def MAX_INTERVAL : ℚ := 2147483647

/-- The default backoff growth rate `Private.DEFAULT_BACKOFF = 3`. -/
def DEFAULT_BACKOFF : ℚ := 3

/-- The default frequency `{backoff: true, interval: 1000, max: 30000}`. -/
def DEFAULT_FREQUENCY : Frequency :=
  { backoff := Backoff.ofBool true, interval := 1000, max := 30 * 1000 }

/-- JavaScript `Math.round`: round half toward positive infinity. -/
def jsRound (x : ℚ) : ℤ := ⌊x + 1 / 2⌋

/-- The effective growth rate:
`backoff === true ? DEFAULT_BACKOFF : backoff === false ? 1 : backoff`. -/
def growthOf (b : Backoff) : ℚ :=
  match b with
  | Backoff.ofBool true => DEFAULT_BACKOFF
  | Backoff.ofBool false => 1
  | Backoff.ofNum q => q

/-- `Private.getRandomIntInclusive(min, max)` with the `Math.random()` draw
`r` made explicit: `Math.floor(r * (max - min + 1)) + min` after
`min = Math.ceil(min)` and `max = Math.floor(max)`. -/
def getRandomIntInclusive (r : ℚ) (lo hi : ℚ) : ℤ :=
  let lo2 : ℤ := ⌈lo⌉
  let hi2 : ℤ := ⌊hi⌋
  ⌊r * ((hi2 : ℚ) - (lo2 : ℚ) + 1)⌋ + lo2

/-- `Private.sleep(frequency, last)` with the random draw `r` made explicit
and `last.interval` passed as the rational `lastInterval`:
`min(max, getRandomIntInclusive(interval, last.interval * growth))`. -/
def sleep (f : Frequency) (lastInterval : ℚ) (r : ℚ) : ℚ :=
  let growth := growthOf f.backoff
  let random := getRandomIntInclusive r f.interval (lastInterval * growth)
  min f.max (random : ℚ)

/-- Numeric-backoff validity: `1 ≤ q` for `Backoff.ofNum q`, trivially true
for booleans. -/
def backoffValid (b : Backoff) : Bool :=
  match b with
  | Backoff.ofNum q => decide (1 ≤ q)
  | Backoff.ofBool _ => true

/-- The first error check of the setter:
`typeof backoff === 'number' && backoff < 1`. -/
def backoffTooSmall (b : Backoff) : Bool :=
  match b with
  | Backoff.ofNum q => decide (q < 1)
  | Backoff.ofBool _ => false

/-- Validity of a stored frequency: the invariants the setter establishes.
Stored intervals are integers (`Math.round` has been applied). -/
def validFreq (f : Frequency) : Prop :=
  0 ≤ f.interval ∧ f.interval ≤ f.max ∧ f.max ≤ MAX_INTERVAL ∧
    ((jsRound f.interval : ℚ) = f.interval) ∧ ((jsRound f.max : ℚ) = f.max) ∧
    backoffValid f.backoff = true

instance (f : Frequency) : Decidable (validFreq f) := by
  unfold validFreq; infer_instance

/-- Validation core of the `frequency` setter, applied after the
disposed/deep-equal early return: round `interval` and `max`, check the
three error conditions in source order, and store the rounded values. -/
def validateFrequency (f : Frequency) : Except String Frequency :=
  let interval : ℚ := (jsRound f.interval : ℤ)
  let max : ℚ := (jsRound f.max : ℤ)
  if backoffTooSmall f.backoff then
    Except.error "Poll backoff growth factor must be at least 1"
  else if interval < 0 ∨ interval > max then
    Except.error "Poll interval must be between 0 and max"
  else if max > MAX_INTERVAL then
    Except.error "Max interval must be less than 2147483647"
  else
    Except.ok { backoff := f.backoff, interval := interval, max := max }

/-- The `frequency` setter on a poll whose stored frequency is `current`:
`if (this.isDisposed || JSONExt.deepEqual(frequency, this.frequency || {}))
return;` and otherwise the validation core.  `Except.error` models a
synchronous throw (nothing is stored). -/
def setFrequency (isDisposed : Bool) (current : Frequency) (f : Frequency) :
    Except String Frequency :=
  if isDisposed || f == current then Except.ok current
  else validateFrequency f

/-- The stored frequency after an assignment: unchanged when the setter
throws. -/
def storedAfter (isDisposed : Bool) (current : Frequency) (f : Frequency) :
    Frequency :=
  match setFrequency isDisposed current f with
  | Except.ok g => g
  | Except.error _ => current

/-- Invalidity of an assigned frequency value, measured after rounding
`interval` and `max` to integers. -/
def invalidInput (f : Frequency) : Prop :=
  backoffTooSmall f.backoff = true ∨
  (jsRound f.interval : ℚ) < 0 ∨
  (jsRound f.interval : ℚ) > (jsRound f.max : ℚ) ∨
  (jsRound f.max : ℚ) > MAX_INTERVAL

instance (f : Frequency) : Decidable (invalidInput f) := by
  unfold invalidInput; infer_instance

/-! The poll state machine. -/

/-- Poll phases. -/
inductive Phase
  | constructed
  | disposed
  | reconnected
  | refreshed
  | rejected
  | resolved
  | standby
  | started
  | stopped
  | whenRejected
  | whenResolved
deriving DecidableEq

/-- Interval values: a rational number of milliseconds, or the
`NEVER = Infinity` sentinel.  `IMMEDIATE` is `IntervalV.ms 0`. -/
inductive IntervalV
  | ms (q : ℚ)
  | never
deriving DecidableEq

/-- Poll tick state `{interval, payload, phase, timestamp}`.  Payloads (both
resolutions `T` and rejections `U`) are modelled as integers; `none` is
JavaScript `null`. -/
structure State where
  interval : IntervalV
  payload : Option ℤ
  phase : Phase
  timestamp : ℚ
deriving DecidableEq

/-- Resolved standby values: a `Poll.Standby` literal or a boolean, as
returned by a standby predicate. -/
inductive StandbyVal
  | never
  | whenHidden
  | ofBool (b : Bool)

/-- The poll's standby policy: a literal, or a predicate returning
`boolean | Standby`. -/
inductive StandbyPolicy
  | never
  | whenHidden
  | fn (f : Unit → StandbyVal)

/-- An armed callback: the host timer/animation-frame entry created at the
end of `schedule`.  It captures the identity of the tick promise that was
current when it was armed (`tickId`); `immediate` records whether it is an
animation-frame (`interval === IMMEDIATE`) or a timeout callback. -/
structure Timer where
  tickId : ℕ
  immediate : Bool
deriving DecidableEq

/-- The mutable fields of a `Poll` instance.  Tick-promise identity is
modelled by the counter `tickId` (a fresh `PromiseDelegate` increments it);
`tickError` is the rejection message of the current tick promise, if it was
rejected; `disposedEmits` counts emissions of the `disposed` signal. -/
structure PollModel where
  name : String
  frequency : Frequency
  standby : StandbyPolicy
  state : State
  tickId : ℕ
  tickError : Option String
  disposedEmits : ℕ
  timer : Option Timer

/-- The `next` argument of `schedule`: a partial state overlay plus an
optional cancellation predicate. -/
structure Next where
  interval : Option IntervalV := none
  payload : Option (Option ℤ) := none
  phase : Option Phase := none
  cancel : Option (State → Bool) := none

/-- `Poll.schedule(next)`.  Models the synchronous installation: the
disposed guard, the cancellation check, the overlay of `next` over
`{interval: frequency.interval, payload: null, phase: 'standby',
timestamp: now}`, the swap of state and tick promise, the clearing of the
previously armed callback, and the arming of the next one (animation frame
for `IMMEDIATE`, nothing for `NEVER`, a timeout otherwise).  The
constructed-phase gate (`await this.tick` when `state.phase ===
'constructed'` and `next.phase` is not a `when-*` phase) suspends without
changing state; theorems about callers take the post-gate state as input. -/
def schedule (p : PollModel) (next : Next) (now : ℚ) : PollModel :=
  if p.state.phase = Phase.disposed then p
  else if (next.cancel.map (fun c => c p.state)).getD false then p
  else
    let state : State :=
      { interval := next.interval.getD (IntervalV.ms p.frequency.interval),
        payload := next.payload.getD none,
        phase := next.phase.getD Phase.standby,
        timestamp := now }
    let tid := p.tickId + 1
    { p with
      state := state,
      tickId := tid,
      tickError := none,
      timer :=
        match state.interval with
        | IntervalV.ms q =>
            if q = 0 then some { tickId := tid, immediate := true }
            else some { tickId := tid, immediate := false }
        | IntervalV.never => none }

/-- `Poll.dispose()`: idempotent; installs the disposed state (interval
`NEVER`, payload `null`) with a fresh timestamp, rejects the outstanding
tick promise with an explicit disposed error, and emits the `disposed`
signal.  The armed callback and the tick identity are left untouched. -/
def dispose (p : PollModel) (now : ℚ) : PollModel :=
  if p.state.phase = Phase.disposed then p
  else
    { p with
      state :=
        { interval := IntervalV.never, payload := none,
          phase := Phase.disposed, timestamp := now },
      tickError := some ("Poll (" ++ p.name ++ ") is disposed."),
      disposedEmits := p.disposedEmits + 1 }

/-- `Poll.refresh()`: schedule an `IMMEDIATE` tick with phase `refreshed`,
canceled when the current phase is already `refreshed`. -/
def refresh (p : PollModel) (now : ℚ) : PollModel :=
  schedule p
    { cancel := some (fun last => last.phase == Phase.refreshed),
      interval := some (IntervalV.ms 0),
      phase := some Phase.refreshed } now

/-- `Poll.start()`: schedule an `IMMEDIATE` tick with phase `started`,
canceled when the current phase is neither `standby` nor `stopped`. -/
def start (p : PollModel) (now : ℚ) : PollModel :=
  schedule p
    { cancel := some (fun last =>
        last.phase != Phase.standby && last.phase != Phase.stopped),
      interval := some (IntervalV.ms 0),
      phase := some Phase.started } now

/-- `Poll.stop()`: schedule a `NEVER` tick with phase `stopped`, canceled
when the current phase is already `stopped`. -/
def stop (p : PollModel) (now : ℚ) : PollModel :=
  schedule p
    { cancel := some (fun last => last.phase == Phase.stopped),
      interval := some IntervalV.never,
      phase := some Phase.stopped } now

/-- The standby resolution at the top of `Poll._execute`, with the host
visibility flag `document.hidden` made explicit:
`standby === 'never' ? false : standby === 'when-hidden' ? !!document.hidden
: true`.  Note the final `: true` branch, reached by any non-literal value,
booleans included. -/
def resolveStandby (policy : StandbyPolicy) (hidden : Bool) : Bool :=
  let s : StandbyVal :=
    match policy with
    | StandbyPolicy.never => StandbyVal.never
    | StandbyPolicy.whenHidden => StandbyVal.whenHidden
    | StandbyPolicy.fn f => f ()
  match s with
  | StandbyVal.never => false
  | StandbyVal.whenHidden => hidden
  | StandbyVal.ofBool _ => true

/-- `Poll._execute()`: stand by (`schedule()` with no explicit `next`) or
invoke the factory with the current state.  Returns the poll after the
synchronous part and whether the factory was invoked; a factory invocation
itself changes no state (its settlement is a separate step that captures
`pending = this.tick`, i.e. the current `tickId`). -/
def execute (p : PollModel) (hidden : Bool) (now : ℚ) : PollModel × Bool :=
  if resolveStandby p.standby hidden then (schedule p {} now, false)
  else (p, true)

/-- The armed callback body from the end of `Poll.schedule`:
`if (this.isDisposed || this.tick !== scheduled.promise) return;
this._execute();` where `t` is the tick identity the callback captured. -/
def runTimerCallback (p : PollModel) (t : ℕ) (hidden : Bool) (now : ℚ) :
    PollModel × Bool :=
  if p.state.phase = Phase.disposed ∨ p.tickId ≠ t then (p, false)
  else execute p hidden now

/-- Settlement of a resolved factory promise with value `v`, for the
invocation that captured tick identity `t`: dropped when disposed or
superseded, otherwise `schedule({payload: resolved, phase:
state.phase === 'rejected' ? 'reconnected' : 'resolved'})`. -/
def factoryResolve (p : PollModel) (t : ℕ) (v : ℤ) (now : ℚ) : PollModel :=
  if p.state.phase = Phase.disposed ∨ p.tickId ≠ t then p
  else
    schedule p
      { payload := some (some v),
        phase := some (if p.state.phase = Phase.rejected then
          Phase.reconnected else Phase.resolved) } now

/-- Settlement of a rejected factory promise with error `e`, for the
invocation that captured tick identity `t`: dropped when disposed or
superseded, otherwise `schedule({interval: Private.sleep(this.frequency,
this.state), payload: rejected, phase: 'rejected'})` with random draw `r`.
The `NEVER` branch of the match is unreachable: a settlement that passes
the guard has the state that armed the firing callback, whose interval is
finite. -/
def factoryReject (p : PollModel) (t : ℕ) (e : ℤ) (r : ℚ) (now : ℚ) :
    PollModel :=
  if p.state.phase = Phase.disposed ∨ p.tickId ≠ t then p
  else
    schedule p
      { interval := some (match p.state.interval with
          | IntervalV.ms q => IntervalV.ms (sleep p.frequency q r)
          | IntervalV.never => IntervalV.never),
        payload := some (some e),
        phase := some Phase.rejected } now

/-- Partial frequency options, merged over `Private.DEFAULT_FREQUENCY` in
the constructor. -/
structure FrequencyOpts where
  backoff : Option Backoff := none
  interval : Option ℚ := none
  max : Option ℚ := none

/-- Spread merge `{...Private.DEFAULT_FREQUENCY, ...(options.frequency)}`. -/
def mergeFrequency (o : FrequencyOpts) : Frequency :=
  { backoff := o.backoff.getD DEFAULT_FREQUENCY.backoff,
    interval := o.interval.getD DEFAULT_FREQUENCY.interval,
    max := o.max.getD DEFAULT_FREQUENCY.max }

/-- Constructor options (the factory and `when` gate are modelled as
reachability steps, not data). -/
structure Options where
  name : Option String := none
  standby : Option StandbyPolicy := none
  frequency : FrequencyOpts := {}

/-- The `Poll` constructor: the initial state is `constructed` with
interval `NEVER`, payload `null`; the frequency assignment goes through the
setter against an unset stored frequency (never deep-equal, so the
validation core runs and may throw, modelled as `Except.error`); `name`
defaults to `'unknown'` and `standby` to `'when-hidden'`. -/
def mkPoll (o : Options) (now : ℚ) : Except String PollModel :=
  match validateFrequency (mergeFrequency o.frequency) with
  | Except.error e => Except.error e
  | Except.ok f =>
      Except.ok
        { name := o.name.getD "unknown",
          frequency := f,
          standby := o.standby.getD StandbyPolicy.whenHidden,
          state :=
            { interval := IntervalV.never, payload := none,
              phase := Phase.constructed, timestamp := now },
          tickId := 0,
          tickError := none,
          disposedEmits := 0,
          timer := none }

/-- The `frequency` setter as a step on the whole poll: on a throw the
stored frequency is unchanged. -/
def withFrequency (p : PollModel) (f : Frequency) : PollModel :=
  { p with
    frequency :=
      storedAfter (decide (p.state.phase = Phase.disposed)) p.frequency f }

/-- The `standby` setter: a no-op when disposed (the `===` early return
changes nothing either way). -/
def withStandby (p : PollModel) (s : StandbyPolicy) : PollModel :=
  if p.state.phase = Phase.disposed then p else { p with standby := s }

/-- Settlement of the constructor's `when` gate promise: schedule an
`IMMEDIATE` tick with phase `when-resolved` or `when-rejected` (the
handler's own disposed check is subsumed by the one in `schedule`). -/
def whenSettled (p : PollModel) (rejected : Bool) (now : ℚ) : PollModel :=
  schedule p
    { interval := some (IntervalV.ms 0),
      phase := some (if rejected then Phase.whenRejected
        else Phase.whenResolved) } now

/-- Reachable polls: constructed values closed under every operation of the
source file (the `when` gate settlement, the public operations, both
setters, the armed-callback firing, and factory settlements). -/
inductive Reachable : PollModel → Prop
  | init (o : Options) (now : ℚ) (p : PollModel) :
      mkPoll o now = Except.ok p → Reachable p
  | whenStep (p : PollModel) (b : Bool) (now : ℚ) :
      Reachable p → Reachable (whenSettled p b now)
  | refreshStep (p : PollModel) (now : ℚ) :
      Reachable p → Reachable (refresh p now)
  | startStep (p : PollModel) (now : ℚ) :
      Reachable p → Reachable (start p now)
  | stopStep (p : PollModel) (now : ℚ) :
      Reachable p → Reachable (stop p now)
  | disposeStep (p : PollModel) (now : ℚ) :
      Reachable p → Reachable (dispose p now)
  | timerStep (p : PollModel) (t : ℕ) (hidden : Bool) (now : ℚ) :
      Reachable p → Reachable (runTimerCallback p t hidden now).1
  | resolveStep (p : PollModel) (t : ℕ) (v : ℤ) (now : ℚ) :
      Reachable p → Reachable (factoryResolve p t v now)
  | rejectStep (p : PollModel) (t : ℕ) (e : ℤ) (r : ℚ) (now : ℚ) :
      Reachable p → Reachable (factoryReject p t e r now)
  | setFreqStep (p : PollModel) (f : Frequency) :
      Reachable p → Reachable (withFrequency p f)
  | setStandbyStep (p : PollModel) (s : StandbyPolicy) :
      Reachable p → Reachable (withStandby p s)

/-- Sample poll whose standby policy is a predicate that always returns the
boolean `false`, in a running state with an armed timeout. -/
def standbyFalsePoll : PollModel :=
  { name := "unknown",
    frequency := DEFAULT_FREQUENCY,
    standby := StandbyPolicy.fn (fun _ => StandbyVal.ofBool false),
    state :=
      { interval := IntervalV.ms 1000, payload := some 1,
        phase := Phase.resolved, timestamp := 0 },
    tickId := 3,
    tickError := none,
    disposedEmits := 0,
    timer := some { tickId := 3, immediate := false } }

/-- The sample poll: the result of constructing with all-default options at
time 0 (phase `constructed`, interval `NEVER`, no armed callback). -/
def witnessPoll : PollModel :=
  { name := "unknown",
    frequency := DEFAULT_FREQUENCY,
    standby := StandbyPolicy.whenHidden,
    state :=
      { interval := IntervalV.never, payload := none,
        phase := Phase.constructed, timestamp := 0 },
    tickId := 0,
    tickError := none,
    disposedEmits := 0,
    timer := none }

/-- Sample poll sitting in a `rejected` state with an armed timeout. -/
def rejectedPoll : PollModel :=
  { name := "unknown",
    frequency := DEFAULT_FREQUENCY,
    standby := StandbyPolicy.never,
    state :=
      { interval := IntervalV.ms 3000, payload := some 7,
        phase := Phase.rejected, timestamp := 0 },
    tickId := 5,
    tickError := none,
    disposedEmits := 0,
    timer := some { tickId := 5, immediate := false } }

/-- Reached sample: the default-constructed poll after its `when` gate
resolves and the resulting immediate tick's factory invocation rejects
(error 9, random draw 1/2). -/
def rejectedWitnessPoll : PollModel :=
  factoryReject (whenSettled witnessPoll false 1) 1 9 (1 / 2) 3

/-- Sample poll sitting in a `stopped` state (no armed callback). -/
def stoppedPoll : PollModel :=
  { name := "unknown",
    frequency := DEFAULT_FREQUENCY,
    standby := StandbyPolicy.whenHidden,
    state :=
      { interval := IntervalV.never, payload := none,
        phase := Phase.stopped, timestamp := 0 },
    tickId := 4,
    tickError := none,
    disposedEmits := 0,
    timer := none }

/-- Structural invariant maintained by every operation: the payload is
`null` outside the three payload-carrying phases; an armed callback always
captured the current tick identity; `stopped` and `constructed` states have
no armed callback; and the `disposed` signal has been emitted exactly once
on disposed polls and never otherwise. -/
structure PollInv (p : PollModel) : Prop where
  payload_null : p.state.phase ≠ Phase.resolved → p.state.phase ≠ Phase.rejected →
    p.state.phase ≠ Phase.reconnected → p.state.payload = none
  timer_id : ∀ c, p.timer = some c → c.tickId = p.tickId
  stopped_timer : p.state.phase = Phase.stopped → p.timer = none
  constructed_timer : p.state.phase = Phase.constructed → p.timer = none
  emits : p.disposedEmits = if p.state.phase = Phase.disposed then 1 else 0

/-- Scheduling preserves the invariant when the overlaid `next` carries a
payload only into payload phases, forces interval `NEVER` with phase
`stopped`, and never installs the `constructed` or `disposed` phases. -/
lemma pollInv_schedule (p : PollModel) (next : Next) (now : ℚ)
    (hp : PollInv p)
    (hpay : next.payload.getD none ≠ none →
      next.phase.getD Phase.standby = Phase.resolved ∨
      next.phase.getD Phase.standby = Phase.rejected ∨
      next.phase.getD Phase.standby = Phase.reconnected)
    (hstop : next.phase.getD Phase.standby = Phase.stopped →
      next.interval = some IntervalV.never)
    (hcon : next.phase.getD Phase.standby ≠ Phase.constructed)
    (hdis : next.phase.getD Phase.standby ≠ Phase.disposed) :
    PollInv (schedule p next now) := by
  unfold schedule
  by_cases h1 : p.state.phase = Phase.disposed
  · simpa [h1] using hp
  by_cases h2 : (next.cancel.map (fun c => c p.state)).getD false = true
  · simpa [h1, h2] using hp
  have h2' : (next.cancel.map (fun c => c p.state)).getD false = false := by
    simpa using h2
  simp only [if_neg h1, h2', Bool.false_eq_true, if_false]
  constructor
  · intro hr hj hc
    by_cases hpn : next.payload.getD none = none
    · simpa using hpn
    · rcases hpay hpn with h | h | h <;> simp_all
  · intro c hc
    rcases hi : next.interval.getD (IntervalV.ms p.frequency.interval) with q | _
    · simp only [hi] at hc ⊢
      by_cases hq : q = 0 <;> simp [hq] at hc <;> simp [← hc]
    · simp only [hi] at hc
      simp at hc
  · intro hs
    have hnev := hstop (by simpa using hs)
    simp [hnev]
  · intro hs
    exact absurd (by simpa using hs) hcon
  · have hnd : next.phase.getD Phase.standby ≠ Phase.disposed := hdis
    simp only []
    rw [if_neg (by simpa using hnd), hp.emits, if_neg h1]

lemma pollInv_mkPoll (o : Options) (now : ℚ) (p : PollModel)
    (h : mkPoll o now = Except.ok p) : PollInv p := by
  unfold mkPoll at h
  rcases hv : validateFrequency (mergeFrequency o.frequency) with e | f <;>
    rw [hv] at h
  · exact absurd h (by simp)
  · have hp : p = _ := (Except.ok.injEq _ _).mp h.symm
    subst hp
    constructor <;> simp

lemma pollInv_dispose (p : PollModel) (now : ℚ) (hp : PollInv p) :
    PollInv (dispose p now) := by
  unfold dispose
  by_cases h1 : p.state.phase = Phase.disposed
  · simpa [h1] using hp
  rw [if_neg h1]
  constructor
  · intro _ _ _; rfl
  · intro c hc
    exact hp.timer_id c hc
  · intro hs; simp at hs
  · intro hs; simp at hs
  · simp only []
    rw [hp.emits, if_neg h1]
    simp

lemma pollInv_whenSettled (p : PollModel) (b : Bool) (now : ℚ)
    (hp : PollInv p) : PollInv (whenSettled p b now) := by
  refine pollInv_schedule p _ now hp (by simp) ?_ ?_ ?_ <;> cases b <;> simp

lemma pollInv_refresh (p : PollModel) (now : ℚ) (hp : PollInv p) :
    PollInv (refresh p now) :=
  pollInv_schedule p _ now hp (by simp) (by simp) (by simp) (by simp)

lemma pollInv_start (p : PollModel) (now : ℚ) (hp : PollInv p) :
    PollInv (start p now) :=
  pollInv_schedule p _ now hp (by simp) (by simp) (by simp) (by simp)

lemma pollInv_stop (p : PollModel) (now : ℚ) (hp : PollInv p) :
    PollInv (stop p now) :=
  pollInv_schedule p _ now hp (by simp) (by simp) (by simp) (by simp)

lemma pollInv_timer (p : PollModel) (t : ℕ) (hidden : Bool) (now : ℚ)
    (hp : PollInv p) : PollInv (runTimerCallback p t hidden now).1 := by
  unfold runTimerCallback execute
  by_cases h1 : p.state.phase = Phase.disposed ∨ p.tickId ≠ t
  · simpa [h1] using hp
  rw [if_neg h1]
  by_cases h2 : resolveStandby p.standby hidden = true
  · rw [if_pos h2]
    exact pollInv_schedule p _ now hp (by simp) (by simp) (by simp) (by simp)
  · rw [if_neg h2]
    exact hp

lemma pollInv_factoryResolve (p : PollModel) (t : ℕ) (v : ℤ) (now : ℚ)
    (hp : PollInv p) : PollInv (factoryResolve p t v now) := by
  unfold factoryResolve
  by_cases h1 : p.state.phase = Phase.disposed ∨ p.tickId ≠ t
  · simpa [h1] using hp
  rw [if_neg h1]
  refine pollInv_schedule p _ now hp ?_ ?_ ?_ ?_ <;>
    by_cases h2 : p.state.phase = Phase.rejected <;> simp [h2]

lemma pollInv_factoryReject (p : PollModel) (t : ℕ) (e : ℤ) (r : ℚ) (now : ℚ)
    (hp : PollInv p) : PollInv (factoryReject p t e r now) := by
  unfold factoryReject
  by_cases h1 : p.state.phase = Phase.disposed ∨ p.tickId ≠ t
  · simpa [h1] using hp
  rw [if_neg h1]
  exact pollInv_schedule p _ now hp (by simp) (by simp) (by simp) (by simp)

lemma pollInv_withFrequency (p : PollModel) (f : Frequency) (hp : PollInv p) :
    PollInv (withFrequency p f) := by
  obtain ⟨a, b, c, d, e⟩ := hp
  exact ⟨a, b, c, d, e⟩

lemma pollInv_withStandby (p : PollModel) (s : StandbyPolicy) (hp : PollInv p) :
    PollInv (withStandby p s) := by
  unfold withStandby
  by_cases h1 : p.state.phase = Phase.disposed
  · simpa [h1] using hp
  rw [if_neg h1]
  obtain ⟨a, b, c, d, e⟩ := hp
  exact ⟨a, b, c, d, e⟩

/-- Every reachable poll satisfies the structural invariant. -/
lemma pollInv_reachable (p : PollModel) (h : Reachable p) : PollInv p := by
  induction h with
  | init o now p h => exact pollInv_mkPoll o now p h
  | whenStep p b now _ ih => exact pollInv_whenSettled p b now ih
  | refreshStep p now _ ih => exact pollInv_refresh p now ih
  | startStep p now _ ih => exact pollInv_start p now ih
  | stopStep p now _ ih => exact pollInv_stop p now ih
  | disposeStep p now _ ih => exact pollInv_dispose p now ih
  | timerStep p t hidden now _ ih => exact pollInv_timer p t hidden now ih
  | resolveStep p t v now _ ih => exact pollInv_factoryResolve p t v now ih
  | rejectStep p t e r now _ ih => exact pollInv_factoryReject p t e r now ih
  | setFreqStep p f _ ih => exact pollInv_withFrequency p f ih
  | setStandbyStep p s _ ih => exact pollInv_withStandby p s ih

lemma getRandomIntInclusive_bounds (r lo hi : ℚ) (h : ⌈lo⌉ ≤ ⌊hi⌋)
    (hr0 : 0 ≤ r) (hr1 : r < 1) :
    ⌈lo⌉ ≤ getRandomIntInclusive r lo hi ∧
      getRandomIntInclusive r lo hi ≤ ⌊hi⌋ := by
  unfold getRandomIntInclusive
  dsimp only
  have hcast : ((⌈lo⌉ : ℚ)) ≤ ((⌊hi⌋ : ℚ)) := by exact_mod_cast h
  have hc1 : (1 : ℚ) ≤ (⌊hi⌋ : ℚ) - (⌈lo⌉ : ℚ) + 1 := by linarith
  have hfl0 : 0 ≤ ⌊r * ((⌊hi⌋ : ℚ) - (⌈lo⌉ : ℚ) + 1)⌋ :=
    Int.floor_nonneg.mpr (mul_nonneg hr0 (by linarith))
  have hflup : ⌊r * ((⌊hi⌋ : ℚ) - (⌈lo⌉ : ℚ) + 1)⌋ < ⌊hi⌋ - ⌈lo⌉ + 1 := by
    apply Int.floor_lt.mpr
    push_cast
    nlinarith
  constructor
  · omega
  · omega

/-- C1 (counterexample): at the default frequency (growth 3, interval 1000,
max 30000), previous state interval 0 and random draw 1/2, the backoff
computation returns 500, strictly below `interval = 1000`, so the result is
not within `[interval, max]`. -/
theorem C1_sleep_below_interval_cex :
    sleep DEFAULT_FREQUENCY 0 (1 / 2) = 500 ∧
      1 ≤ growthOf DEFAULT_FREQUENCY.backoff ∧
      (0 : ℚ) ≤ 1 / 2 ∧ (1 : ℚ) / 2 < 1 ∧
      ¬ DEFAULT_FREQUENCY.interval ≤ sleep DEFAULT_FREQUENCY 0 (1 / 2) := by
  norm_num [sleep, getRandomIntInclusive, growthOf, DEFAULT_FREQUENCY,
    DEFAULT_BACKOFF]

/-- C1 (amended): for every frequency with growth ≥ 1 whose interval is an
integer not exceeding `max` (as every stored frequency's is), every random
draw `r ∈ [0,1)`, and every previous state interval `last` with
`interval ≤ last * growth` (so the draw range `[interval, last * growth]`
is nonempty), `Private.sleep` returns a value within `[interval, max]`
inclusive.  Without the nonemptiness condition the bound fails, e.g. at a
previous interval of 0. -/
theorem C1_sleep_within_bounds (f : Frequency) (lastInterval r : ℚ)
    (hgrowth : 1 ≤ growthOf f.backoff)
    (hint : ((⌈f.interval⌉ : ℤ) : ℚ) = f.interval)
    (hle : f.interval ≤ f.max)
    (hr0 : 0 ≤ r) (hr1 : r < 1)
    (hrange : f.interval ≤ lastInterval * growthOf f.backoff) :
    f.interval ≤ sleep f lastInterval r ∧ sleep f lastInterval r ≤ f.max := by
  unfold sleep
  have h1 : ⌈f.interval⌉ ≤ ⌊lastInterval * growthOf f.backoff⌋ :=
    Int.le_floor.mpr (by rw [hint]; exact hrange)
  obtain ⟨hlo, _⟩ :=
    getRandomIntInclusive_bounds r f.interval
      (lastInterval * growthOf f.backoff) h1 hr0 hr1
  constructor
  · apply le_min hle
    calc f.interval = ((⌈f.interval⌉ : ℤ) : ℚ) := hint.symm
      _ ≤ _ := by exact_mod_cast hlo
  · exact min_le_left _ _

/-- C1 (witness): a concrete instance of the amended bound, at the default
frequency, previous interval 1000 and draw 1/2 (the computed sleep is
2000). -/
theorem C1_sleep_within_bounds_witness :
    DEFAULT_FREQUENCY.interval ≤ sleep DEFAULT_FREQUENCY 1000 (1 / 2) ∧
      sleep DEFAULT_FREQUENCY 1000 (1 / 2) ≤ DEFAULT_FREQUENCY.max :=
  C1_sleep_within_bounds DEFAULT_FREQUENCY 1000 (1 / 2)
    (by norm_num [growthOf, DEFAULT_FREQUENCY, DEFAULT_BACKOFF])
    (by norm_num [DEFAULT_FREQUENCY])
    (by norm_num [DEFAULT_FREQUENCY])
    (by norm_num) (by norm_num)
    (by norm_num [growthOf, DEFAULT_FREQUENCY, DEFAULT_BACKOFF])

/-- C2: the standby literals resolve as the claim states (`'never'`
proceeds, `'when-hidden'` stands by exactly when hidden), but a predicate's
boolean result is NOT used directly: the resolution chain ends in `: true`,
so a predicate returning `false` still resolves to "stand by" and
`_execute` schedules a `standby` tick without invoking the factory, even
when the host is visible. -/
theorem C2_standby_boolean_not_used_directly :
    resolveStandby StandbyPolicy.never false = false ∧
    resolveStandby StandbyPolicy.never true = false ∧
    resolveStandby StandbyPolicy.whenHidden false = false ∧
    resolveStandby StandbyPolicy.whenHidden true = true ∧
    resolveStandby (StandbyPolicy.fn (fun _ => StandbyVal.ofBool false))
      false = true ∧
    (execute standbyFalsePoll false 7).2 = false ∧
    (execute standbyFalsePoll false 7).1.state.phase = Phase.standby := by
  refine ⟨rfl, rfl, rfl, rfl, rfl, ?_, ?_⟩ <;> rfl

lemma jsRound_intCast (n : ℤ) : jsRound (n : ℚ) = n := by
  unfold jsRound
  rw [Int.floor_eq_iff]
  constructor <;> linarith

lemma jsRound_1000 : jsRound (1000 : ℚ) = 1000 := by
  have h := jsRound_intCast 1000
  norm_num at h
  exact h

lemma jsRound_30000 : jsRound (30 * 1000 : ℚ) = 30000 := by
  have h := jsRound_intCast 30000
  norm_num at h
  convert h using 2
  norm_num

lemma validFreq_default : validFreq DEFAULT_FREQUENCY := by
  unfold validFreq DEFAULT_FREQUENCY
  refine ⟨by norm_num, by norm_num, by norm_num [MAX_INTERVAL], ?_, ?_, rfl⟩
  · simp only []
    rw [jsRound_1000]
    norm_num
  · simp only []
    rw [jsRound_30000]
    norm_num

lemma validateFrequency_default :
    validateFrequency (mergeFrequency {}) = Except.ok DEFAULT_FREQUENCY := by
  have hm : mergeFrequency {} = DEFAULT_FREQUENCY := rfl
  rw [hm]
  unfold validateFrequency
  simp only [DEFAULT_FREQUENCY, backoffTooSmall, jsRound_1000, jsRound_30000,
    Bool.false_eq_true, if_false]
  rw [if_neg (by norm_num), if_neg (by norm_num [MAX_INTERVAL])]
  simp only [Except.ok.injEq, Frequency.mk.injEq]
  norm_num

lemma backoffValid_of_not_tooSmall (b : Backoff)
    (h : backoffTooSmall b = false) : backoffValid b = true := by
  cases b with
  | ofBool x => rfl
  | ofNum q =>
      simp [backoffTooSmall] at h
      simp [backoffValid, h]

/-- C3: on a non-disposed poll whose stored frequency is valid, assigning
an invalid frequency value (after rounding `interval` and `max`: numeric
backoff < 1, interval < 0, interval > max, or max > MAX_INTERVAL) throws
synchronously and leaves the stored frequency unchanged; every accepted
assignment stores a valid frequency; and construction with the defaults
stores `{backoff: true, interval: 1000, max: 30000}`, which is valid. -/
theorem C3_frequency_validation (current f : Frequency)
    (hcur : validFreq current) :
    (invalidInput f →
      (∃ e, setFrequency false current f = Except.error e) ∧
        storedAfter false current f = current) ∧
    (∀ g, setFrequency false current f = Except.ok g → validFreq g) ∧
    validateFrequency (mergeFrequency {}) = Except.ok DEFAULT_FREQUENCY ∧
    validFreq DEFAULT_FREQUENCY := by
  obtain ⟨hc0, hcm, hcM, hci, hcx, hcb⟩ := hcur
  refine ⟨?_, ?_, validateFrequency_default, validFreq_default⟩
  · intro hinv
    have hne : f ≠ current := by
      intro he
      subst he
      rcases hinv with hb | hb | hb | hb
      · cases hof : f.backoff with
        | ofBool x => simp [backoffTooSmall, hof] at hb
        | ofNum q =>
            rw [hof] at hb
            simp [backoffTooSmall] at hb
            rw [hof] at hcb
            simp [backoffValid] at hcb
            linarith
      · rw [hci] at hb; linarith
      · rw [hci, hcx] at hb; linarith
      · rw [hcx] at hb; linarith
    have hbeq : (f == current) = false := by
      simp [beq_iff_eq, hne]
    have herr : ∃ e, validateFrequency f = Except.error e := by
      unfold validateFrequency
      rcases hb : backoffTooSmall f.backoff with _ | _
      · simp only [hb, Bool.false_eq_true, if_false]
        rcases hinv with hx | hx | hx | hx
        · rw [hb] at hx; exact absurd hx (by simp)
        · rw [if_pos (Or.inl hx)]; exact ⟨_, rfl⟩
        · rw [if_pos (Or.inr hx)]; exact ⟨_, rfl⟩
        · by_cases h2 : ((jsRound f.interval : ℤ) : ℚ) < 0 ∨
              ((jsRound f.interval : ℤ) : ℚ) > ((jsRound f.max : ℤ) : ℚ)
          · rw [if_pos h2]; exact ⟨_, rfl⟩
          · rw [if_neg h2, if_pos hx]; exact ⟨_, rfl⟩
      · simp only [hb, if_true]
        exact ⟨_, rfl⟩
    obtain ⟨e, he⟩ := herr
    have hset : setFrequency false current f = Except.error e := by
      unfold setFrequency
      rw [hbeq]
      simpa using he
    exact ⟨⟨e, hset⟩, by unfold storedAfter; rw [hset]⟩
  · intro g hg
    unfold setFrequency at hg
    by_cases hbeq : (f == current) = true
    · rw [hbeq] at hg
      simp at hg
      rw [← hg]
      exact ⟨hc0, hcm, hcM, hci, hcx, hcb⟩
    · rw [Bool.not_eq_true] at hbeq
      rw [hbeq] at hg
      simp only [Bool.false_or, Bool.false_eq_true, if_false] at hg
      unfold validateFrequency at hg
      rcases hb : backoffTooSmall f.backoff with _ | _ <;> rw [hb] at hg
      · simp only [Bool.false_eq_true, if_false] at hg
        by_cases h2 : ((jsRound f.interval : ℤ) : ℚ) < 0 ∨
            ((jsRound f.interval : ℤ) : ℚ) > ((jsRound f.max : ℤ) : ℚ)
        · rw [if_pos h2] at hg; exact absurd hg (by simp)
        · rw [if_neg h2] at hg
          by_cases h3 : ((jsRound f.max : ℤ) : ℚ) > MAX_INTERVAL
          · rw [if_pos h3] at hg; exact absurd hg (by simp)
          · rw [if_neg h3] at hg
            simp only [Except.ok.injEq] at hg
            push_neg at h2
            refine ⟨?_, ?_, ?_, ?_, ?_, ?_⟩ <;> rw [← hg]
            · exact h2.1
            · exact h2.2
            · exact le_of_not_lt h3
            · exact congrArg _ (jsRound_intCast _)
            · exact congrArg _ (jsRound_intCast _)
            · exact backoffValid_of_not_tooSmall _ hb
      · simp at hg

/-- C3 (witness): assigning `{backoff: 1/2, interval: 1000, max: 30000}`
(an invalid numeric backoff) to a poll holding the default frequency
throws and leaves the default stored. -/
theorem C3_frequency_validation_witness :
    (∃ e, setFrequency false DEFAULT_FREQUENCY
        { backoff := Backoff.ofNum (1 / 2), interval := 1000, max := 30000 } =
      Except.error e) ∧
    storedAfter false DEFAULT_FREQUENCY
        { backoff := Backoff.ofNum (1 / 2), interval := 1000, max := 30000 } =
      DEFAULT_FREQUENCY :=
  (C3_frequency_validation DEFAULT_FREQUENCY
    { backoff := Backoff.ofNum (1 / 2), interval := 1000, max := 30000 }
    validFreq_default).1
    (Or.inl (by norm_num [backoffTooSmall, decide_eq_true_eq]))

lemma schedule_disposed (p : PollModel) (next : Next) (now : ℚ)
    (h : p.state.phase = Phase.disposed) : schedule p next now = p := by
  unfold schedule
  rw [if_pos h]

lemma schedule_canceled (p : PollModel) (next : Next) (now : ℚ)
    (h : (next.cancel.map (fun c => c p.state)).getD false = true) :
    schedule p next now = p := by
  unfold schedule
  by_cases h1 : p.state.phase = Phase.disposed
  · rw [if_pos h1]
  · rw [if_neg h1, if_pos h]

lemma schedule_run (p : PollModel) (next : Next) (now : ℚ)
    (h1 : p.state.phase ≠ Phase.disposed)
    (h2 : (next.cancel.map (fun c => c p.state)).getD false = false) :
    schedule p next now =
      { p with
        state :=
          { interval := next.interval.getD (IntervalV.ms p.frequency.interval),
            payload := next.payload.getD none,
            phase := next.phase.getD Phase.standby,
            timestamp := now },
        tickId := p.tickId + 1,
        tickError := none,
        timer :=
          match next.interval.getD (IntervalV.ms p.frequency.interval) with
          | IntervalV.ms q =>
              if q = 0 then some { tickId := p.tickId + 1, immediate := true }
              else some { tickId := p.tickId + 1, immediate := false }
          | IntervalV.never => none } := by
  unfold schedule
  rw [if_neg h1, h2]
  simp

lemma dispose_disposed (p : PollModel) (now : ℚ)
    (h : p.state.phase = Phase.disposed) : dispose p now = p := by
  unfold dispose
  rw [if_pos h]

lemma dispose_run (p : PollModel) (now : ℚ)
    (h : p.state.phase ≠ Phase.disposed) :
    dispose p now =
      { p with
        state :=
          { interval := IntervalV.never, payload := none,
            phase := Phase.disposed, timestamp := now },
        tickError := some ("Poll (" ++ p.name ++ ") is disposed."),
        disposedEmits := p.disposedEmits + 1 } := by
  unfold dispose
  rw [if_neg h]

lemma dispose_phase (p : PollModel) (now : ℚ) :
    (dispose p now).state.phase = Phase.disposed := by
  by_cases h : p.state.phase = Phase.disposed
  · rw [dispose_disposed p now h]; exact h
  · rw [dispose_run p now h]

lemma mkPoll_default : mkPoll {} 0 = Except.ok witnessPoll := by
  unfold mkPoll
  rw [validateFrequency_default]
  rfl

lemma witnessPoll_reachable : Reachable witnessPoll :=
  Reachable.init {} 0 witnessPoll mkPoll_default

/-- C4: `dispose()` is idempotent; after it, the phase is `disposed` with
interval `NEVER` and payload `null`, the pending tick promise is rejected
with the explicit disposed error, the `disposed` signal has been emitted
exactly once, and `refresh`/`start`/`stop`/`schedule` leave the poll
unchanged. -/
theorem C4_dispose_terminal (p : PollModel) (now now2 : ℚ)
    (hreach : Reachable p) (hnd : p.state.phase ≠ Phase.disposed) :
    (dispose p now).state.phase = Phase.disposed ∧
    (dispose p now).state.interval = IntervalV.never ∧
    (dispose p now).state.payload = none ∧
    (dispose p now).tickError =
      some ("Poll (" ++ p.name ++ ") is disposed.") ∧
    (dispose p now).disposedEmits = 1 ∧
    dispose (dispose p now) now2 = dispose p now ∧
    (∀ n, refresh (dispose p now) n = dispose p now) ∧
    (∀ n, start (dispose p now) n = dispose p now) ∧
    (∀ n, stop (dispose p now) n = dispose p now) ∧
    (∀ next n, schedule (dispose p now) next n = dispose p now) := by
  have hem : p.disposedEmits = 0 := by
    have h := (pollInv_reachable p hreach).emits
    rwa [if_neg hnd] at h
  rw [dispose_run p now hnd]
  refine ⟨rfl, rfl, rfl, rfl, by simp [hem], ?_, ?_, ?_, ?_, ?_⟩
  · exact dispose_disposed _ _ rfl
  · intro n; exact schedule_disposed _ _ _ rfl
  · intro n; exact schedule_disposed _ _ _ rfl
  · intro n; exact schedule_disposed _ _ _ rfl
  · intro next n; exact schedule_disposed _ _ _ rfl

/-- C4 (witness): disposing the freshly constructed sample poll. -/
theorem C4_dispose_terminal_witness :
    (dispose witnessPoll 5).state.phase = Phase.disposed ∧
    (dispose witnessPoll 5).state.interval = IntervalV.never ∧
    (dispose witnessPoll 5).state.payload = none ∧
    (dispose witnessPoll 5).tickError =
      some ("Poll (" ++ witnessPoll.name ++ ") is disposed.") ∧
    (dispose witnessPoll 5).disposedEmits = 1 ∧
    dispose (dispose witnessPoll 5) 6 = dispose witnessPoll 5 ∧
    refresh (dispose witnessPoll 5) 7 = dispose witnessPoll 5 := by
  have h := C4_dispose_terminal witnessPoll 5 6 witnessPoll_reachable
    (by decide)
  exact ⟨h.1, h.2.1, h.2.2.1, h.2.2.2.1, h.2.2.2.2.1, h.2.2.2.2.2.1,
    h.2.2.2.2.2.2.1 7⟩

/-- C5: a factory settlement (resolution or rejection) whose captured tick
promise is no longer current, or which arrives after disposal, causes no
state transition: the poll is unchanged. -/
theorem C5_stale_settlement_discarded (p : PollModel) (t : ℕ) (v e : ℤ)
    (r now now2 : ℚ)
    (h : p.state.phase = Phase.disposed ∨ p.tickId ≠ t) :
    factoryResolve p t v now = p ∧ factoryReject p t e r now2 = p := by
  constructor
  · unfold factoryResolve; rw [if_pos h]
  · unfold factoryReject; rw [if_pos h]

/-- C5 (witness): a settlement carrying a stale tick identity leaves the
sample poll unchanged. -/
theorem C5_stale_settlement_discarded_witness :
    factoryResolve witnessPoll 7 42 1 = witnessPoll ∧
      factoryReject witnessPoll 7 42 (1 / 2) 1 = witnessPoll :=
  C5_stale_settlement_discarded witnessPoll 7 42 42 (1 / 2) 1 1
    (Or.inr (by decide))

/-- C6: a factory resolution with value `v` that is not dropped as
stale/disposed schedules a next state with payload `v` and phase
`reconnected` when the settlement-time phase is `rejected`, `resolved`
otherwise; in particular a success immediately after a rejection yields
`reconnected`, never `resolved`. -/
theorem C6_resolve_phase (p : PollModel) (t : ℕ) (v : ℤ) (now : ℚ)
    (hnd : p.state.phase ≠ Phase.disposed) (ht : p.tickId = t) :
    (factoryResolve p t v now).state.payload = some v ∧
    (factoryResolve p t v now).state.phase =
      (if p.state.phase = Phase.rejected then Phase.reconnected
       else Phase.resolved) ∧
    (p.state.phase = Phase.rejected →
      (factoryResolve p t v now).state.phase = Phase.reconnected) := by
  unfold factoryResolve
  rw [if_neg (by simp [hnd, ht])]
  rw [schedule_run p _ now hnd (by simp)]
  refine ⟨rfl, rfl, ?_⟩
  intro hr
  simp [hr]

/-- C6 (witness): a resolution with value 42 arriving in a `rejected` state
installs payload 42 with phase `reconnected`. -/
theorem C6_resolve_phase_witness :
    (factoryResolve rejectedPoll 5 42 9).state.payload = some 42 ∧
      (factoryResolve rejectedPoll 5 42 9).state.phase = Phase.reconnected := by
  have h := C6_resolve_phase rejectedPoll 5 42 9 (by decide) rfl
  exact ⟨h.1, h.2.2 rfl⟩

/-- C7: `refresh()` coalesces: from a live non-`refreshed` state one call
installs a `refreshed` tick (a single transition, bumping the tick
identity), and a second call before that tick fires is canceled — the poll
is left entirely unchanged by it. -/
theorem C7_refresh_coalesces (p : PollModel) (now now2 : ℚ)
    (hnd : p.state.phase ≠ Phase.disposed)
    (hnr : p.state.phase ≠ Phase.refreshed) :
    (refresh p now).state.phase = Phase.refreshed ∧
    (refresh p now).tickId = p.tickId + 1 ∧
    refresh (refresh p now) now2 = refresh p now := by
  have hrun : refresh p now = _ :=
    schedule_run p _ now hnd (by simp [hnr])
  rw [hrun]
  refine ⟨rfl, rfl, ?_⟩
  exact schedule_canceled _ _ _ (by simp)

/-- C7 (witness): two refreshes of the sample poll coalesce into one
`refreshed` transition. -/
theorem C7_refresh_coalesces_witness :
    (refresh witnessPoll 1).state.phase = Phase.refreshed ∧
      refresh (refresh witnessPoll 1) 2 = refresh witnessPoll 1 := by
  have h := C7_refresh_coalesces witnessPoll 1 2 (by decide) (by decide)
  exact ⟨h.1, h.2.2⟩

lemma rejectedWitnessPoll_reachable : Reachable rejectedWitnessPoll :=
  Reachable.rejectStep _ 1 9 (1 / 2) 3
    (Reachable.whenStep _ false 1 witnessPoll_reachable)

lemma whenSettled_witnessPoll_eq :
    whenSettled witnessPoll false 1 =
      { witnessPoll with
        state :=
          { interval := IntervalV.ms 0, payload := none,
            phase := Phase.whenResolved, timestamp := 1 },
        tickId := 1,
        tickError := none,
        timer := some { tickId := 1, immediate := true } } := by
  unfold whenSettled
  rw [schedule_run _ _ _ (by decide) (by simp)]
  simp [witnessPoll]

lemma rejectedWitnessPoll_eq :
    rejectedWitnessPoll =
      { witnessPoll with
        state :=
          { interval := IntervalV.ms 500, payload := some 9,
            phase := Phase.rejected, timestamp := 3 },
        tickId := 2,
        tickError := none,
        timer := some { tickId := 2, immediate := false } } := by
  unfold rejectedWitnessPoll
  rw [whenSettled_witnessPoll_eq]
  unfold factoryReject
  rw [if_neg (by simp)]
  rw [schedule_run _ _ _ (by simp) (by simp)]
  have hs : sleep witnessPoll.frequency 0 (1 / 2) = 500 := by
    norm_num [witnessPoll, sleep, getRandomIntInclusive, growthOf,
      DEFAULT_FREQUENCY, DEFAULT_BACKOFF]
  have hs2 : sleep witnessPoll.frequency 0 (2⁻¹ : ℚ) = 500 := by
    rw [← hs]; norm_num
  simp [hs]
  exact ⟨hs2, by rw [hs2]; norm_num⟩

/-- C8: after `stop()` or `dispose()`, the callback that was armed
beforehand fires as a no-op: it performs no factory invocation and no
state transition (for `stop` the tick identity has moved on or the state
was already `stopped`, in which case no callback is armed; for `dispose`
the disposed guard trips). -/
theorem C8_stop_dispose_cancel_callback (p : PollModel) (c : Timer)
    (hidden : Bool) (n1 n2 n3 n4 : ℚ)
    (hreach : Reachable p) (ht : p.timer = some c) :
    runTimerCallback (stop p n1) c.tickId hidden n2 = (stop p n1, false) ∧
    runTimerCallback (dispose p n3) c.tickId hidden n4 =
      (dispose p n3, false) := by
  have hinv := pollInv_reachable p hreach
  have hcid : c.tickId = p.tickId := hinv.timer_id c ht
  constructor
  · by_cases h1 : p.state.phase = Phase.disposed
    · have hstop : stop p n1 = p := schedule_disposed p _ n1 h1
      rw [hstop]
      unfold runTimerCallback
      rw [if_pos (Or.inl h1)]
    · by_cases h2 : p.state.phase = Phase.stopped
      · exact absurd ht (by rw [hinv.stopped_timer h2]; simp)
      · have hrun : stop p n1 = _ :=
          schedule_run p _ n1 h1 (by simp [h2])
        rw [hrun]
        unfold runTimerCallback
        rw [if_pos (Or.inr (by simp [hcid]))]
  · unfold runTimerCallback
    rw [if_pos (Or.inl (dispose_phase p n3))]

/-- C8 (witness): the armed callback of a rejected-state poll (reached by a
factory rejection on the sample poll after its `when` gate settles and its
timer fires) is a no-op after `stop` and after `dispose`. -/
theorem C8_stop_dispose_cancel_callback_witness :
    runTimerCallback (stop rejectedWitnessPoll 1) 2 false 2 =
      (stop rejectedWitnessPoll 1, false) ∧
    runTimerCallback (dispose rejectedWitnessPoll 3) 2 false 4 =
      (dispose rejectedWitnessPoll 3, false) := by
  have h := C8_stop_dispose_cancel_callback rejectedWitnessPoll
    { tickId := 2, immediate := false } false 1 2 3 4
    rejectedWitnessPoll_reachable (by rw [rejectedWitnessPoll_eq])
  exact h

/-- C9: in every reachable poll state, the payload is `null` unless the
phase is `resolved`, `rejected` or `reconnected`. -/
theorem C9_payload_only_when_settled (p : PollModel) (hreach : Reachable p)
    (h1 : p.state.phase ≠ Phase.resolved)
    (h2 : p.state.phase ≠ Phase.rejected)
    (h3 : p.state.phase ≠ Phase.reconnected) :
    p.state.payload = none :=
  (pollInv_reachable p hreach).payload_null h1 h2 h3

/-- C9 (witness): the freshly constructed sample poll carries no payload. -/
theorem C9_payload_only_when_settled_witness :
    witnessPoll.state.payload = none :=
  C9_payload_only_when_settled witnessPoll witnessPoll_reachable
    (by decide) (by decide) (by decide)

/-- C10: `start()` performs a `started` transition exactly when the phase
it is evaluated against is `standby` or `stopped`; from every other phase
the transition is canceled and the poll is unchanged. -/
theorem C10_start_only_from_inactive (p : PollModel) (now : ℚ) :
    ((p.state.phase = Phase.standby ∨ p.state.phase = Phase.stopped) →
      (start p now).state.phase = Phase.started ∧
        (start p now).tickId = p.tickId + 1) ∧
    (p.state.phase ≠ Phase.standby → p.state.phase ≠ Phase.stopped →
      start p now = p) := by
  constructor
  · intro h
    have hnd : p.state.phase ≠ Phase.disposed := by
      rcases h with h | h <;> rw [h] <;> exact fun hc => Phase.noConfusion hc
    have hrun : start p now = _ :=
      schedule_run p _ now hnd (by rcases h with h | h <;> simp [h])
    rw [hrun]
    exact ⟨rfl, rfl⟩
  · intro h1 h2
    by_cases hd : p.state.phase = Phase.disposed
    · exact schedule_disposed p _ now hd
    · exact schedule_canceled p _ now (by simp [h1, h2])

/-- C10 (witness): `start` transitions a stopped sample poll to `started`
and leaves the freshly constructed one (phase `constructed`) unchanged. -/
theorem C10_start_only_from_inactive_witness :
    (start stoppedPoll 1).state.phase = Phase.started ∧
      start witnessPoll 1 = witnessPoll := by
  have h1 := C10_start_only_from_inactive stoppedPoll 1
  have h2 := C10_start_only_from_inactive witnessPoll 1
  exact ⟨(h1.1 (Or.inr rfl)).1, h2.2 (by decide) (by decide)⟩

end Poll
